import Mathlib

/-!
Verification of `packages/services/examples/typescript-browser-with-output/main.py`
from the jupyterlab repository: a minimal notebook-server extension that
registers a page handler rendering `index.html` and a static file handler
serving the `build/` directory.

The Python module is shallowly embedded below.  Pure values become Lean
values; the handler methods become functions threading an explicit
environment; Python exceptions become `Except` errors.  The host framework
(tornado / jupyter_server) and the jinja2 template `index.html` are not part
of the source under verification; the few framework behaviours the claims
depend on are modelled from the specification and marked as such in their
doc comments.
-/

set_option autoImplicit false

namespace JLabExample

/-! ## Path helpers (model of `os.path`) -/

/-- Model of `os.path.dirname` for POSIX-style paths: everything before the
last `/` of the path, and the empty string when the path has no `/`. -/
def dirname (p : String) : String :=
  String.mk (((p.data.reverse.dropWhile (fun c => c ≠ '/')).drop 1).reverse)

/-- Model of `os.path.join a b` for POSIX-style paths: `b` when `b` is
absolute (starts with `/`), otherwise `a` and `b` glued with a single `/`
separator.  The leading/trailing `/` tests are done on the character list
(`/` is a single code point, so this agrees with the string-level tests). -/
def joinPath (a b : String) : String :=
  if b.data.head? = some '/' then b
  else if a = "" ∨ a.data.getLast? = some '/' then a ++ b
  else a ++ "/" ++ b

/-! ## A matcher for the route regexes

The module registers exactly two tornado URL patterns, `r"/example/?"` and
`r"/example/(.*)"`, and tornado matches them anchored at both ends (it
appends `$` when missing and uses `re.match`).  `rmatch` implements the
regex fragment these patterns use: literal characters, `.` (any character),
a postfix `?` (optional), a postfix `*` (repetition) and the grouping
parentheses of `(.*)`, which only delimit the capture and do not affect
matching. -/

def rmatch : List Char → List Char → Bool
  | [], s => s.isEmpty
  | '(' :: ps, s => rmatch ps s
  | ')' :: ps, s => rmatch ps s
  | p :: '?' :: ps, s =>
      rmatch ps s ||
        (match s with
         | c :: cs => (p == '.' || p == c) && rmatch ps cs
         | [] => false)
  | p :: '*' :: ps, s =>
      rmatch ps s ||
        (match s with
         | c :: cs => (p == '.' || p == c) && rmatch (p :: '*' :: ps) cs
         | [] => false)
  | p :: ps, c :: cs => (p == '.' || p == c) && rmatch ps cs
  | _ :: _, [] => false
termination_by ps s => (s.length, ps.length)

/-! ## Python-level errors

Exceptions that can escape the handlers.  `keyError` models a `KeyError`
from `self.settings[...]`, `templateNotFound` a jinja2 `TemplateNotFound`,
and `httpError` a tornado `HTTPError` carrying a status code. -/

inductive PyErr where
  | keyError (key : String)
  | templateNotFound (name : String)
  | httpError (status : Nat)
  deriving Repr, DecidableEq

/-- Model of `self.settings[k]`: the value when the key is present, a
`KeyError` otherwise. -/
def settingsGet (settings : List (String × String)) (k : String) :
    Except PyErr String :=
  match settings.lookup k with
  | some v => Except.ok v
  | none => Except.error (PyErr.keyError k)

/-! ## The environment a request runs in

Everything the module's code can observe.  `modulePath` is Python's
`__file__`; `cwd` is the process working directory (present in the model
precisely so that independence from it is expressible); `fs` maps absolute
file paths to file contents; `settings`, `base_url` and `static_url` are the
per-request ambient values supplied by the host framework; `host` records
which of the two import alternatives supplied the base classes. -/

inductive HostFramework where
  | notebook
  | jupyterServer
  deriving Repr, DecidableEq

structure Env where
  modulePath : String
  cwd : String
  fs : List (String × String)
  settings : List (String × String)
  base_url : String
  static_url : String → String
  host : HostFramework

/-- `HERE = os.path.dirname(__file__)`. -/
def HERE (modulePath : String) : String := dirname modulePath

/-- `LOADER = FileSystemLoader(HERE)`; `LOADER.load(env, name)` reads the
template file `name` from the directory `HERE`, raising `TemplateNotFound`
when it is absent. -/
def LOADER.load (here : String) (fs : List (String × String)) (name : String) :
    Except PyErr String :=
  match fs.lookup (joinPath here name) with
  | some src => Except.ok src
  | none => Except.error (PyErr.templateNotFound name)

/-- Modelled from the spec: jinja2 rendering of the repository's
`index.html` template (the template file itself is not under `src/`).  Per
the specification the rendered page embeds the three injected values — the
static-asset URL builder, the base URL and the token — and "contains the
literal token and base URL values". -/
def renderTemplate (src : String) (static : String → String)
    (base_url token : String) : String :=
  src ++ "<script src=" ++ static "bundle.js" ++ "></script><base href=" ++
    base_url ++ "><body data-token=" ++ token ++ "></body>"

/-! ## Request-scoped output -/

/-- The request-scoped response state owned by the framework: the chunks
written so far by `self.write`. -/
structure RequestState where
  buffer : List String
  deriving Repr, DecidableEq

/-- `self.write(chunk)` appends the chunk to the request's output buffer. -/
def JupyterHandler.write (rs : RequestState) (chunk : String) : RequestState :=
  { rs with buffer := rs.buffer ++ [chunk] }

/-- `ExampleHander.get`, translated line by line: evaluate
`self.settings['token']`, then `render_template("index.html", ...)` — which
goes through the overridden `get_template`, i.e. `LOADER.load` with the
`jinja2_env` settings entry — and `self.write` the rendered page.  The
method mutates nothing, so the environment is returned unchanged. -/
def ExampleHander.get (e : Env) (rs : RequestState) :
    Env × Except PyErr RequestState :=
  (e, do
    let token ← settingsGet e.settings "token"
    let _jenv ← settingsGet e.settings "jinja2_env"
    let src ← LOADER.load (HERE e.modulePath) e.fs "index.html"
    pure (JupyterHandler.write rs
      (renderTemplate src e.static_url e.base_url token)))

/-- Modelled from the spec: the host framework's built-in static file
serving (`FileFindHandler`), to which the module delegates entirely — it
resolves the captured remainder against its configured root directory and
returns the file's contents, or raises the framework's not-found error
(`HTTPError(404)`) when no such file exists. -/
def FileFindHandler.get (e : Env) (root : String) (rel : String)
    (rs : RequestState) : Env × Except PyErr RequestState :=
  (e, match e.fs.lookup (joinPath root rel) with
      | some contents => Except.ok (JupyterHandler.write rs contents)
      | none => Except.error (PyErr.httpError 404))

/-! ## The application wrapper -/

/-- A route target: the module's page handler, or the framework's static
file handler together with its configured `path` argument. -/
inductive HandlerTag where
  | page
  | staticFiles (path : String)
  deriving Repr, DecidableEq

/-- The handler table built in `ExampleApp.start`, verbatim from the
source:

    handlers = [
        (r'/example/?', ExampleHander),
        (r"/example/(.*)", FileFindHandler,
            {'path': os.path.join(HERE, 'build')}),
    ]
-/
def exampleHandlers (modulePath : String) : List (String × HandlerTag) :=
  [("/example/?", HandlerTag.page),
   ("/example/(.*)", HandlerTag.staticFiles (joinPath (HERE modulePath) "build"))]

/-- The web application's routing table: groups of URL rules, each group
registered under a host pattern, in registration order. -/
structure WebApp where
  handlerGroups : List (String × List (String × HandlerTag))
  deriving Repr, DecidableEq

/-- `self.web_app.add_handlers(host_pattern, handlers)`: registers the rule
group under the host pattern. -/
def WebApp.add_handlers (w : WebApp) (hostPattern : String)
    (hs : List (String × HandlerTag)) : WebApp :=
  { w with handlerGroups := w.handlerGroups ++ [(hostPattern, hs)] }

/-- The observable application state: the routing table, whether the base
application's startup sequence has run, and whether any shutdown logic has
run (present so that its absence is expressible). -/
structure AppState where
  web_app : WebApp
  baseStarted : Bool
  shutdownRun : Bool
  deriving Repr, DecidableEq

/-- Modelled from the spec: `super(ExampleApp, self).start()`, the base
application's own startup sequence (external framework, treated as a black
box that the wrapper defers to). -/
def ServerApp.start (s : AppState) : AppState :=
  { s with baseStarted := true }

/-- `default_url = Unicode('/example')`. -/
def ExampleApp.default_url : String := "/example"

/-- `ExampleApp.start`, translated line by line: build the handler table,
register it with `add_handlers(".*$", handlers)`, then call the base
class's `start`. -/
def ExampleApp.start (modulePath : String) (s : AppState) : AppState :=
  let handlers := exampleHandlers modulePath
  let s1 := { s with web_app := s.web_app.add_handlers ".*$" handlers }
  ServerApp.start s1

/-! ## Dispatch and the full request pipeline -/

/-- Tornado's rule dispatch over a rule group: the first pattern in
registration order whose anchored regex matches the request path wins. -/
def findHandler (rules : List (String × HandlerTag)) (path : String) :
    Option HandlerTag :=
  (rules.find? (fun r => rmatch r.1.data path.data)).map Prod.snd

/-- An HTTP response: status code and body. -/
structure Response where
  status : Nat
  body : String
  deriving Repr, DecidableEq

/-- Modelled from the spec: the framework's response finishing and generic
error-response mechanism.  A handler that returns normally produces a 200
response whose body is the written output; an uncaught `HTTPError` produces
a response with that error's status; any other uncaught exception produces
the generic 500 response. -/
def frameworkFinish : Except PyErr RequestState → Response
  | Except.ok rs => { status := 200, body := String.join rs.buffer }
  | Except.error (PyErr.httpError code) => { status := code, body := "" }
  | Except.error _ => { status := 500, body := "" }

/-- One GET request through the example's routes: dispatch the path against
the handler table of `ExampleApp.start`, run the matched handler on a fresh
request state, and finish the response.  For the `r"/example/(.*)"` rule
the capture group is the path minus its 9-character literal prefix
`/example/`.  An unmatched path gets the framework's default 404. -/
def handleRequest (e : Env) (path : String) : Env × Response :=
  match findHandler (exampleHandlers e.modulePath) path with
  | some HandlerTag.page =>
      let (e1, r) := ExampleHander.get e { buffer := [] }
      (e1, frameworkFinish r)
  | some (HandlerTag.staticFiles root) =>
      let (e1, r) := FileFindHandler.get e root (String.mk (path.data.drop 9))
        { buffer := [] }
      (e1, frameworkFinish r)
  | none => (e, { status := 404, body := "" })

/-- The import fallback at the top of the module: the `notebook` package's
classes are tried first, and the `jupyter_server` classes are used if and
only if that import raises `ImportError`. -/
def resolveHost (notebookImportSucceeds : Bool) : HostFramework :=
  if notebookImportSucceeds then HostFramework.notebook
  else HostFramework.jupyterServer

/-- The directory searched by the module-level template loader
`LOADER = FileSystemLoader(HERE)`, as a function of the environment. -/
def loaderSearchPath (e : Env) : String := HERE e.modulePath

/-- The directory served by the static file handler, the
`os.path.join(HERE, 'build')` passed as its `path` argument, as a function
of the environment. -/
def staticRoot (e : Env) : String := joinPath (HERE e.modulePath) "build"

/-- A concrete well-configured environment used to exercise the handlers:
the module lives at `/repo/example/main.py`, the template and one build
artifact exist, and the framework supplies a token, a jinja2 environment
and the base/static URL helpers. -/
def sampleEnv : Env :=
  { modulePath := "/repo/example/main.py"
    cwd := "/home/user"
    fs := [("/repo/example/index.html", "<h1>example</h1>"),
           ("/repo/example/build/bundle.js", "bundle-code")]
    settings := [("token", "secret-token"), ("jinja2_env", "environment"),
                 ("mathjax_url", "unused")]
    base_url := "/base/"
    static_url := fun s => "/base/static/" ++ s
    host := HostFramework.jupyterServer }

/-- A second concrete environment: the same module location, template
content, token value and URL helpers as `sampleEnv`, but a different
working directory, settings order, filesystem extent and host alias. -/
def sampleEnv2 : Env :=
  { sampleEnv with
    cwd := "/elsewhere"
    settings := [("jinja2_env", "environment"), ("token", "secret-token")]
    fs := [("/repo/example/index.html", "<h1>example</h1>")]
    host := HostFramework.notebook }

/-- A variant of `sampleEnv` with a different working directory and the
settings and filesystem emptied, exercising what the fixed file locations
do not depend on. -/
def sampleEnvStripped : Env :=
  { sampleEnv with cwd := "/elsewhere", settings := [], fs := [] }

/-- A freshly constructed application state: no routes registered, the base
application not yet started. -/
def freshApp : AppState :=
  { web_app := { handlerGroups := [] }, baseStarted := false, shutdownRun := false }

/-! ## Lemmas about the route regexes and dispatch -/


theorem dotStarTail : ∀ s : List Char, rmatch ('.' :: '*' :: ')' :: []) s = true := by
  intro s
  induction s with
  | nil => simp [rmatch]
  | cons c cs ih => simp [rmatch, ih]

theorem groupTail (s : List Char) : rmatch ('(' :: '.' :: '*' :: ')' :: []) s = true := by
  simp [rmatch, dotStarTail]

theorem rmatch_page_ext (r : List Char) :
    rmatch ['/','e','x','a','m','p','l','e','/','?']
      ('/' :: 'e' :: 'x' :: 'a' :: 'm' :: 'p' :: 'l' :: 'e' :: '/' :: r) = r.isEmpty := by
  simp [rmatch]

theorem rmatch_static_ext (r : List Char) :
    rmatch ['/','e','x','a','m','p','l','e','/','(','.','*',')']
      ('/' :: 'e' :: 'x' :: 'a' :: 'm' :: 'p' :: 'l' :: 'e' :: '/' :: r) = true := by
  simp [rmatch, groupTail]

theorem rmatch_page_root :
    rmatch ['/','e','x','a','m','p','l','e','/','?'] ['/','e','x','a','m','p','l','e'] = true := by
  simp [rmatch]

theorem rmatch_static_root :
    rmatch ['/','e','x','a','m','p','l','e','/','(','.','*',')']
      ['/','e','x','a','m','p','l','e'] = false := by
  simp [rmatch]

theorem findHandler_root (mp : String) :
    findHandler (exampleHandlers mp) "/example" = some HandlerTag.page := by
  simp [findHandler, exampleHandlers, List.find?, rmatch_page_root]

theorem findHandler_rootSlash (mp : String) :
    findHandler (exampleHandlers mp) "/example/" = some HandlerTag.page := by
  simp [findHandler, exampleHandlers, List.find?, rmatch_page_ext []]

theorem data_sub (r : String) : ("/example/" ++ r).data = "/example/".data ++ r.data :=
  String.data_append "/example/" r

theorem findHandler_sub (mp : String) (r : String) (hr : r ≠ "") :
    findHandler (exampleHandlers mp) ("/example/" ++ r) =
      some (HandlerTag.staticFiles (joinPath (HERE mp) "build")) := by
  have hdata : r.data.isEmpty = false := by
    cases hd : r.data with
    | nil => exact absurd (String.ext hd) hr
    | cons a l => rfl
  simp [findHandler, exampleHandlers, List.find?, rmatch_page_ext, rmatch_static_ext, hdata]

theorem capture_sub (r : String) : String.mk (("/example/" ++ r).data.drop 9) = r := by
  rw [data_sub]
  have h : ("/example/".data).length = 9 := rfl
  rw [← h, List.drop_left]

theorem handleRequest_fst (e : Env) (p : String) : (handleRequest e p).1 = e := by
  cases h : findHandler (exampleHandlers e.modulePath) p with
  | none => simp [handleRequest, h]
  | some tag =>
      cases tag with
      | page => simp [handleRequest, h, ExampleHander.get]
      | staticFiles root => simp [handleRequest, h, FileFindHandler.get]

theorem handleRequest_root_eval (e : Env) (tok jenv src : String)
    (htok : e.settings.lookup "token" = some tok)
    (hjenv : e.settings.lookup "jinja2_env" = some jenv)
    (hsrc : e.fs.lookup (joinPath (HERE e.modulePath) "index.html") = some src) :
    (handleRequest e "/example").2 =
      { status := 200, body := renderTemplate src e.static_url e.base_url tok } := by
  simp [handleRequest, findHandler_root, ExampleHander.get, settingsGet, LOADER.load,
    htok, hjenv, hsrc, frameworkFinish, JupyterHandler.write, String.join,
    Bind.bind, Except.bind, Functor.map, Except.map, Pure.pure, Except.pure]

theorem handleRequest_root_token_missing (e : Env)
    (h : e.settings.lookup "token" = none) :
    (handleRequest e "/example").2 = { status := 500, body := "" } := by
  simp [handleRequest, findHandler_root, ExampleHander.get, settingsGet, h, frameworkFinish,
    Bind.bind, Except.bind, Functor.map, Except.map, Pure.pure, Except.pure]

theorem handleRequest_root_jenv_missing (e : Env) (tok : String)
    (htok : e.settings.lookup "token" = some tok)
    (h : e.settings.lookup "jinja2_env" = none) :
    (handleRequest e "/example").2 = { status := 500, body := "" } := by
  simp [handleRequest, findHandler_root, ExampleHander.get, settingsGet, htok, h, frameworkFinish,
    Bind.bind, Except.bind, Functor.map, Except.map, Pure.pure, Except.pure]

theorem handleRequest_root_template_missing (e : Env) (tok jenv : String)
    (htok : e.settings.lookup "token" = some tok)
    (hjenv : e.settings.lookup "jinja2_env" = some jenv)
    (h : e.fs.lookup (joinPath (HERE e.modulePath) "index.html") = none) :
    (handleRequest e "/example").2 = { status := 500, body := "" } := by
  simp [handleRequest, findHandler_root, ExampleHander.get, settingsGet, LOADER.load,
    htok, hjenv, h, frameworkFinish,
    Bind.bind, Except.bind, Functor.map, Except.map, Pure.pure, Except.pure]

theorem handleRequest_sub_found (e : Env) (r contents : String) (hr : r ≠ "")
    (h : e.fs.lookup (joinPath (joinPath (HERE e.modulePath) "build") r) = some contents) :
    (handleRequest e ("/example/" ++ r)).2 = { status := 200, body := contents } := by
  simp [handleRequest, findHandler_sub e.modulePath r hr, capture_sub, FileFindHandler.get,
    h, frameworkFinish, JupyterHandler.write, String.join]

theorem handleRequest_sub_missing (e : Env) (r : String) (hr : r ≠ "")
    (h : e.fs.lookup (joinPath (joinPath (HERE e.modulePath) "build") r) = none) :
    (handleRequest e ("/example/" ++ r)).2 = { status := 404, body := "" } := by
  simp [handleRequest, findHandler_sub e.modulePath r hr, capture_sub, FileFindHandler.get,
    h, frameworkFinish]

/-- C1: a GET on the registered root path returns HTTP 200 whose body is
the fixed `index.html` template rendered with exactly the three values
taken from the per-request settings — the static-asset URL builder, the
base URL, and the token stored under the settings key `token` — and the
response body contains the literal token and base URL values. -/
theorem root_get_renders_index (e : Env) (tok jenv src : String)
    (htok : e.settings.lookup "token" = some tok)
    (hjenv : e.settings.lookup "jinja2_env" = some jenv)
    (hsrc : e.fs.lookup (joinPath (HERE e.modulePath) "index.html") = some src) :
    (handleRequest e "/example").2 =
      { status := 200, body := renderTemplate src e.static_url e.base_url tok } ∧
    (∃ a b, (handleRequest e "/example").2.body = a ++ tok ++ b) ∧
    (∃ a b, (handleRequest e "/example").2.body = a ++ e.base_url ++ b) := by
  have heval := handleRequest_root_eval e tok jenv src htok hjenv hsrc
  refine ⟨heval, ?_, ?_⟩
  · refine ⟨src ++ "<script src=" ++ e.static_url "bundle.js" ++ "></script><base href=" ++
      e.base_url ++ "><body data-token=", "></body>", ?_⟩
    rw [heval]
    simp [renderTemplate, String.append_assoc]
  · refine ⟨src ++ "<script src=" ++ e.static_url "bundle.js" ++ "></script><base href=",
      "><body data-token=" ++ tok ++ "></body>", ?_⟩
    rw [heval]
    simp [renderTemplate, String.append_assoc]

/-- Witness for C1 at the concrete environment `sampleEnv`. -/
theorem root_get_renders_index_witness :
    (handleRequest sampleEnv "/example").2 =
      { status := 200,
        body := renderTemplate "<h1>example</h1>" sampleEnv.static_url "/base/" "secret-token" } ∧
    (∃ a b, (handleRequest sampleEnv "/example").2.body = a ++ "secret-token" ++ b) ∧
    (∃ a b, (handleRequest sampleEnv "/example").2.body = a ++ sampleEnv.base_url ++ b) := by
  have h := root_get_renders_index sampleEnv "secret-token" "environment" "<h1>example</h1>"
    rfl rfl rfl
  exact ⟨h.1, h.2.1, h.2.2⟩

theorem handleRequest_root_eq (e : Env) :
    handleRequest e "/example" =
      (e, frameworkFinish (ExampleHander.get e { buffer := [] }).2) := by
  unfold handleRequest
  rw [findHandler_root]
  rfl

theorem response_ext (e1 e2 : Env) (hmp : e1.modulePath = e2.modulePath)
    (hfs : e1.fs = e2.fs) (hs : e1.settings = e2.settings)
    (hb : e1.base_url = e2.base_url) (hst : e1.static_url = e2.static_url)
    (p : String) : (handleRequest e1 p).2 = (handleRequest e2 p).2 := by
  have hf : findHandler (exampleHandlers e1.modulePath) p
      = findHandler (exampleHandlers e2.modulePath) p := by rw [hmp]
  cases h : findHandler (exampleHandlers e2.modulePath) p with
  | none => simp [handleRequest, h, hf.trans h]
  | some tag =>
      cases tag with
      | page =>
          simp [handleRequest, h, hf.trans h, ExampleHander.get, settingsGet, LOADER.load,
            hmp, hfs, hs, hb, hst]
      | staticFiles root =>
          simp [handleRequest, h, hf.trans h, FileFindHandler.get, hfs]

/-- C2: application startup registers exactly two route patterns — the
root pattern `/example/?` for the page handler and the wildcard pattern
`/example/(.*)` for the static file handler — and the default landing URL
is `/example`. -/
theorem start_registers_two_routes (mp : String) (s : AppState)
    (h0 : s.web_app.handlerGroups = []) :
    (ExampleApp.start mp s).web_app.handlerGroups =
      [(".*$", [("/example/?", HandlerTag.page),
                ("/example/(.*)", HandlerTag.staticFiles (joinPath (HERE mp) "build"))])] ∧
    ((ExampleApp.start mp s).web_app.handlerGroups.map (fun g => g.2.length)) = [2] ∧
    ExampleApp.default_url = "/example" := by
  simp [ExampleApp.start, ServerApp.start, WebApp.add_handlers, exampleHandlers, h0,
    ExampleApp.default_url]

/-- Witness for C2 at a concrete module path and fresh application state. -/
theorem start_registers_two_routes_witness :
    (ExampleApp.start "/repo/example/main.py" freshApp).web_app.handlerGroups =
      [(".*$", [("/example/?", HandlerTag.page),
                ("/example/(.*)",
                  HandlerTag.staticFiles (joinPath (HERE "/repo/example/main.py") "build"))])] ∧
    ((ExampleApp.start "/repo/example/main.py" freshApp).web_app.handlerGroups.map
        (fun g => g.2.length)) = [2] ∧
    ExampleApp.default_url = "/example" :=
  start_registers_two_routes "/repo/example/main.py" freshApp rfl

/-- C3: for a GET whose path lies below the URL prefix `/example/` (a
nonempty captured remainder; the bare prefix itself is dispatched to the
page handler, see C8), the static file handler resolves the remainder
against the fixed `build` directory next to the module and returns the
file with HTTP 200 when it exists, and HTTP 404 when it does not. -/
theorem static_route_serves_files (e : Env) (r : String) (hr : r ≠ "") :
    (∀ contents,
        e.fs.lookup (joinPath (joinPath (HERE e.modulePath) "build") r) = some contents →
        (handleRequest e ("/example/" ++ r)).2 = { status := 200, body := contents }) ∧
    (e.fs.lookup (joinPath (joinPath (HERE e.modulePath) "build") r) = none →
        (handleRequest e ("/example/" ++ r)).2 = { status := 404, body := "" }) :=
  ⟨fun c hc => handleRequest_sub_found e r c hr hc,
   fun hn => handleRequest_sub_missing e r hr hn⟩

/-- Witness for C3: `bundle.js` exists in `sampleEnv` and is served with
200; `missing.js` does not and yields 404. -/
theorem static_route_serves_files_witness :
    (handleRequest sampleEnv ("/example/" ++ "bundle.js")).2 =
      { status := 200, body := "bundle-code" } ∧
    (handleRequest sampleEnv ("/example/" ++ "missing.js")).2 =
      { status := 404, body := "" } :=
  ⟨(static_route_serves_files sampleEnv "bundle.js" (by decide)).1 "bundle-code" rfl,
   (static_route_serves_files sampleEnv "missing.js" (by decide)).2 rfl⟩

/-- C4: `ExampleApp.start` first registers both handlers (page handler at
the root pattern, static file handler at the wildcard pattern bound to the
fixed directory) and then defers to the base application's own startup; it
adds no other lifecycle or shutdown logic. -/
theorem start_registers_then_defers (mp : String) (s : AppState) :
    ExampleApp.start mp s =
      ServerApp.start
        { s with web_app := s.web_app.add_handlers ".*$" (exampleHandlers mp) } ∧
    (ExampleApp.start mp s).baseStarted = true ∧
    (ExampleApp.start mp s).shutdownRun = s.shutdownRun ∧
    (ExampleApp.start mp s).web_app.handlerGroups =
      s.web_app.handlerGroups ++ [(".*$", exampleHandlers mp)] :=
  ⟨rfl, rfl, rfl, rfl⟩

/-- Counterexample to C5 as stated: a missing static file is a failure of
this code, yet the response the framework produces for it has status 404,
which is not a 5xx status. -/
theorem missing_static_file_yields_404_not_5xx :
    (handleRequest sampleEnv "/example/missing.js").2.status = 404 ∧
    ¬ (500 ≤ (handleRequest sampleEnv "/example/missing.js").2.status ∧
        (handleRequest sampleEnv "/example/missing.js").2.status < 600) := by
  have h2 : handleRequest sampleEnv "/example/missing.js"
      = handleRequest sampleEnv ("/example/" ++ "missing.js") := rfl
  have h : (handleRequest sampleEnv ("/example/" ++ "missing.js")).2 =
      { status := 404, body := "" } :=
    handleRequest_sub_missing sampleEnv "missing.js" (by decide) rfl
  rw [h2, h]
  exact ⟨rfl, by decide⟩

/-- C5 (amended): a missing settings key (`token` or `jinja2_env`) and a
missing template propagate as unhandled exceptions to the framework's
generic error mechanism, which returns a 500 response; a missing static
file surfaces through the framework's not-found error and yields a 404
response; the handlers themselves contain no recovery logic. -/
theorem failures_propagate_to_framework (e : Env) :
    (e.settings.lookup "token" = none →
        (handleRequest e "/example").2 = { status := 500, body := "" }) ∧
    (∀ tok, e.settings.lookup "token" = some tok →
        e.settings.lookup "jinja2_env" = none →
        (handleRequest e "/example").2 = { status := 500, body := "" }) ∧
    (∀ tok jenv, e.settings.lookup "token" = some tok →
        e.settings.lookup "jinja2_env" = some jenv →
        e.fs.lookup (joinPath (HERE e.modulePath) "index.html") = none →
        (handleRequest e "/example").2 = { status := 500, body := "" }) ∧
    (∀ r, r ≠ "" →
        e.fs.lookup (joinPath (joinPath (HERE e.modulePath) "build") r) = none →
        (handleRequest e ("/example/" ++ r)).2 = { status := 404, body := "" }) :=
  ⟨handleRequest_root_token_missing e,
   fun tok htok h => handleRequest_root_jenv_missing e tok htok h,
   fun tok jenv htok hjenv h => handleRequest_root_template_missing e tok jenv htok hjenv h,
   fun r hr h => handleRequest_sub_missing e r hr h⟩

/-- Witness for the amended C5 at concrete environments: settings without
`token`, settings without `jinja2_env`, a filesystem without the template,
and a filesystem without the requested static file. -/
theorem failures_propagate_to_framework_witness :
    (handleRequest { sampleEnv with settings := [] } "/example").2 =
      { status := 500, body := "" } ∧
    (handleRequest { sampleEnv with settings := [("token", "secret-token")] } "/example").2 =
      { status := 500, body := "" } ∧
    (handleRequest { sampleEnv with fs := [] } "/example").2 =
      { status := 500, body := "" } ∧
    (handleRequest sampleEnv ("/example/" ++ "missing.js")).2 =
      { status := 404, body := "" } :=
  ⟨(failures_propagate_to_framework _).1 rfl,
   (failures_propagate_to_framework _).2.1 "secret-token" rfl rfl,
   (failures_propagate_to_framework _).2.2.1 "secret-token" "environment" rfl rfl rfl,
   (failures_propagate_to_framework sampleEnv).2.2.2 "missing.js" (by decide) rfl⟩

/-- C6: handling any GET request leaves the application state unchanged —
the environment (settings, filesystem, module location) is returned
exactly as it was, so the registered routes, `HERE`-derived loader search
path and static root are all unchanged; only the request-scoped response
is produced. -/
theorem handlers_mutate_no_server_state (e : Env) (p : String) :
    (handleRequest e p).1 = e ∧
    (handleRequest e p).1.settings = e.settings ∧
    exampleHandlers (handleRequest e p).1.modulePath = exampleHandlers e.modulePath ∧
    loaderSearchPath (handleRequest e p).1 = loaderSearchPath e ∧
    staticRoot (handleRequest e p).1 = staticRoot e := by
  have h := handleRequest_fst e p
  rw [h]
  exact ⟨rfl, rfl, rfl, rfl, rfl⟩

/-- C7: the template loader's search path and the static asset directory
are functions of the module's own location only — the loader is rooted at
the directory containing the module file and the static directory is its
`build` subdirectory — and neither depends on the working directory, the
settings, the filesystem contents or anything else in the environment. -/
theorem fixed_locations_relative_to_module (e1 e2 : Env)
    (h : e1.modulePath = e2.modulePath) :
    loaderSearchPath e1 = loaderSearchPath e2 ∧
    staticRoot e1 = staticRoot e2 ∧
    loaderSearchPath e1 = dirname e1.modulePath ∧
    staticRoot e1 = joinPath (dirname e1.modulePath) "build" ∧
    exampleHandlers e1.modulePath =
      [("/example/?", HandlerTag.page),
       ("/example/(.*)", HandlerTag.staticFiles (staticRoot e1))] := by
  simp [loaderSearchPath, staticRoot, HERE, exampleHandlers, h]

/-- Witness for C7: `sampleEnvStripped` differs from `sampleEnv` in
working directory, settings and filesystem, yet both locations agree. -/
theorem fixed_locations_witness :
    loaderSearchPath sampleEnv =
      loaderSearchPath sampleEnvStripped ∧
    staticRoot sampleEnv =
      staticRoot sampleEnvStripped ∧
    loaderSearchPath sampleEnv = dirname sampleEnv.modulePath ∧
    staticRoot sampleEnv = joinPath (dirname sampleEnv.modulePath) "build" ∧
    exampleHandlers sampleEnv.modulePath =
      [("/example/?", HandlerTag.page),
       ("/example/(.*)", HandlerTag.staticFiles (staticRoot sampleEnv))] :=
  fixed_locations_relative_to_module sampleEnv
    sampleEnvStripped rfl

/-- C8: the root pattern `/example/?` matches both `/example` and
`/example/`; the wildcard pattern `/example/(.*)` also matches `/example/`
with an empty capture; and because the page handler is registered first,
both `/example` and `/example/` are dispatched to the page handler and
never to the static file handler. -/
theorem root_dispatch_precedence (mp : String) :
    rmatch "/example/?".data "/example".data = true ∧
    rmatch "/example/?".data "/example/".data = true ∧
    rmatch "/example/(.*)".data "/example/".data = true ∧
    String.mk ("/example/".data.drop 9) = "" ∧
    findHandler (exampleHandlers mp) "/example" = some HandlerTag.page ∧
    findHandler (exampleHandlers mp) "/example/" = some HandlerTag.page ∧
    ¬ (findHandler (exampleHandlers mp) "/example" =
        some (HandlerTag.staticFiles (joinPath (HERE mp) "build"))) ∧
    ¬ (findHandler (exampleHandlers mp) "/example/" =
        some (HandlerTag.staticFiles (joinPath (HERE mp) "build"))) := by
  refine ⟨rmatch_page_root, rmatch_page_ext [], rmatch_static_ext [], rfl,
    findHandler_root mp, findHandler_rootSlash mp, ?_, ?_⟩
  · rw [findHandler_root mp]
    simp
  · rw [findHandler_rootSlash mp]
    simp

/-- C9: the import fallback selects the legacy `notebook` classes exactly
when that import succeeds and the `jupyter_server` classes exactly when it
fails, and the module's request handling behaves identically whichever
alias supplied the base classes. -/
theorem import_fallback_behavior :
    resolveHost true = HostFramework.notebook ∧
    resolveHost false = HostFramework.jupyterServer ∧
    ∀ (e : Env) (h1 h2 : HostFramework) (p : String),
      (handleRequest { e with host := h1 } p).2 = (handleRequest { e with host := h2 } p).2 := by
  refine ⟨rfl, rfl, ?_⟩
  intro e h1 h2 p
  exact response_ext { e with host := h1 } { e with host := h2 } rfl rfl rfl rfl rfl p

/-- C10: the page handler's GET is deterministic — two environments that
agree on the `token` and `jinja2_env` settings entries, the content of the
`index.html` template, the base URL and the static URL builder produce
identical handler outputs and identical response bodies, whatever else
differs between them. -/
theorem page_get_deterministic (e1 e2 : Env) (rs : RequestState)
    (htok : e1.settings.lookup "token" = e2.settings.lookup "token")
    (hjenv : e1.settings.lookup "jinja2_env" = e2.settings.lookup "jinja2_env")
    (hsrc : e1.fs.lookup (joinPath (HERE e1.modulePath) "index.html")
          = e2.fs.lookup (joinPath (HERE e2.modulePath) "index.html"))
    (hb : e1.base_url = e2.base_url) (hst : e1.static_url = e2.static_url) :
    (ExampleHander.get e1 rs).2 = (ExampleHander.get e2 rs).2 ∧
    (handleRequest e1 "/example").2 = (handleRequest e2 "/example").2 := by
  have hget : ∀ rs0 : RequestState,
      (ExampleHander.get e1 rs0).2 = (ExampleHander.get e2 rs0).2 := by
    intro rs0
    simp only [ExampleHander.get, settingsGet, LOADER.load]
    rw [htok, hjenv, hsrc, hb, hst]
  refine ⟨hget rs, ?_⟩
  rw [handleRequest_root_eq e1, handleRequest_root_eq e2]
  exact congrArg frameworkFinish (hget { buffer := [] })

/-- Witness for C10: `sampleEnv` and `sampleEnv2` differ in working
directory, settings order, filesystem extent and host alias, yet render
the same page. -/
theorem page_get_deterministic_witness :
    (ExampleHander.get sampleEnv { buffer := [] }).2 =
      (ExampleHander.get sampleEnv2 { buffer := [] }).2 ∧
    (handleRequest sampleEnv "/example").2 = (handleRequest sampleEnv2 "/example").2 :=
  page_get_deterministic sampleEnv sampleEnv2 { buffer := [] } rfl rfl rfl rfl rfl

end JLabExample
